import Mathlib

/-!
Shallow embedding of the prometheus-deadmansswitch repository
(src/api.py — heartbeat recorder, src/checker.py — liveness evaluator).

The DynamoDB table (the Cluster Registry) is modelled as a partial map from
cluster name to a stored item with the two attributes the code touches
(`epoch_seconds`, `error_state`); `update_item` with a `set` expression
upserts the one attribute and leaves the other as it was (creating the item
when absent, with the other attribute missing).

External effects of the checker pass (Slack posts, per-cluster state writes)
are recorded in an event trace.  The wall clock (`time.time()` is read once
per loop iteration in `check`) is an oracle `times : Nat → Int` indexed by
iteration.  Failures of the two swallowed external calls (`dynamodb_update`
catches `ClientError`, `send_slack_notification` catches `RequestException`;
both only log) are injected through the oracles `update_fails` /
`notify_fails`: a failed update leaves the registry unchanged, and a failed
notification has no effect on state or control flow at all — exactly the
except-and-log semantics of the source.
-/

namespace DeadMansSwitch

/-- A DynamoDB item for one cluster: the attributes the two handlers read or
write.  Either attribute may be absent. -/
structure Item where
  epoch_seconds : Option Int
  error_state : Option Bool
deriving DecidableEq, Repr

/-- The Cluster Registry: the DynamoDB table keyed by `cluster_name`. -/
def Registry : Type := String → Option Item

/-- The stored `error_state` attribute of a cluster, if any. -/
def errorAt (reg : Registry) (k : String) : Option Bool :=
  (reg k).bind Item.error_state

/-- The stored `epoch_seconds` attribute of a cluster, if any. -/
def epochAt (reg : Registry) (k : String) : Option Int :=
  (reg k).bind Item.epoch_seconds

/-! ## src/api.py — the heartbeat recorder -/

/-- The Lambda event of `webhook`: the cluster name from the URL path and the
optional `verify_token` query parameter. -/
structure ApiEvent where
  cluster_name : String
  query_verify_token : Option String
deriving DecidableEq, Repr

/-- `verify_token(event)`: true iff the query carries a `verify_token` equal
to the configured secret (`VERIFY_TOKEN`). -/
def verify_token (secret : String) (e : ApiEvent) : Bool :=
  match e.query_verify_token with
  | some t => t == secret
  | none => false

/-- `dynamodb_write(table, cluster_name, epoch_seconds)`:
`update_item` with `set epoch_seconds=:e` — upserts the `epoch_seconds`
attribute of the cluster's item, creating the item if absent, and leaves
`error_state` as it was. -/
def dynamodb_write (reg : Registry) (cluster_name : String) (epoch_seconds : Int) :
    Registry :=
  fun k =>
    if k = cluster_name then
      some { epoch_seconds := some epoch_seconds, error_state := errorAt reg cluster_name }
    else reg k

/-- The HTTP-style response dict returned by `webhook`. -/
structure Response where
  statusCode : Nat
  body : String
deriving DecidableEq, Repr

/-- `webhook(event, context)`: verifies the token (400 on mismatch, no
write), otherwise stamps the current epoch seconds for the cluster and
returns 200 with the timestamp as body.  `write_fails` injects a
`ClientError` in `dynamodb_write`, which the source re-raises as an
`InternalServerError` exception (the `.error` case). -/
def webhook (secret : String) (now : Int) (write_fails : Bool) (e : ApiEvent)
    (reg : Registry) : Except String (Registry × Response) :=
  if verify_token secret e then
    if write_fails then
      Except.error "[InternalServerError] DynamoDB Update Encountered an Error"
    else
      Except.ok (dynamodb_write reg e.cluster_name now, ⟨200, toString now⟩)
  else
    Except.ok (reg, ⟨400, "Wrong verification token"⟩)

/-! ## src/checker.py — the liveness evaluator -/

/-- The checker's configuration, plus the Schedule Oracle's answers at the
current pass: `croniter.is_valid` for each expression, and the most recent
past occurrence of each cron expression relative to `datetime.now()`
(as comparable timestamps). -/
structure CheckerConfig where
  MAX_TIME_SECONDS : Int
  SCALE_DOWN_CLUSTERS : List String
  scale_down_cron_valid : Bool
  scale_up_cron_valid : Bool
  last_scale_down : Int
  last_scale_up : Int
deriving DecidableEq, Repr

/-- `check_cluster_cron(cluster_name)`: False iff the cluster is currently
scaled down per the configured maintenance window; clusters outside the
list, or with an invalid cron expression, are processed normally. -/
def check_cluster_cron (cfg : CheckerConfig) (cluster_name : String) : Bool :=
  if cluster_name ∉ cfg.SCALE_DOWN_CLUSTERS then true
  else if ¬ cfg.scale_down_cron_valid ∨ ¬ cfg.scale_up_cron_valid then true
  else if cfg.last_scale_down > cfg.last_scale_up then false
  else true

/-- One record returned by `dynamodb_scan` (projection
`cluster_name, epoch_seconds, error_state`; `error_state` may be absent). -/
structure ClusterRecord where
  cluster_name : String
  epoch_seconds : Int
  error_state : Option Bool
deriving DecidableEq, Repr

/-- The `notification_text` argument `check` passes to
`send_slack_notification` for a cluster. -/
def notification_text (cluster_name : String) (t : Int) : String :=
  s!"Time since {cluster_name} checked in is {t} seconds"

/-- The `slack_text` built by `send_slack_notification`: a fixed header
(alert or recovery framing) followed by the caller's text. -/
def slack_text (error : Bool) (text : String) : String :=
  if error then
    "*Prometheus Instance Not Responding*\nA Prometheus instance has not checked in for over 5 minutes\n"
      ++ text
  else
    "*Prometheus Instance Recovered*\nA Prometheus instances has recovered\n" ++ text

/-- An external effect attempted while processing one cluster: a Slack post
(`notify`, with the alert/recovery flag and the staleness in the message) or
a `dynamodb_update` of `error_state` (`update`). -/
inductive Event where
  | notify (error : Bool) (cluster : String) (staleness : Int)
  | update (cluster : String) (error_state : Bool)
deriving DecidableEq, Repr

/-- The cluster an event belongs to. -/
def eventCluster : Event → String
  | Event.notify _ c _ => c
  | Event.update c _ => c

/-- The Slack message body a `notify` event posts (built by
`send_slack_notification`); `update` events post nothing. -/
def eventMessage : Event → Option String
  | Event.notify e c t => some (slack_text e (notification_text c t))
  | Event.update _ _ => none

/-- The body of the `for cluster in clusters` loop of `check`, as the list of
effects attempted for that cluster: skip entirely when
`check_cluster_cron` is False; alert-notify and set `error_state=True` when
stale; otherwise recovery-notify only if the stored `error_state` is truthy,
and set `error_state=False`. -/
def processCluster (cfg : CheckerConfig) (now : Int) (c : ClusterRecord) : List Event :=
  if check_cluster_cron cfg c.cluster_name then
    let t := now - c.epoch_seconds
    if t > cfg.MAX_TIME_SECONDS then
      [Event.notify true c.cluster_name t, Event.update c.cluster_name true]
    else
      (if c.error_state = some true then [Event.notify false c.cluster_name t] else [])
        ++ [Event.update c.cluster_name false]
  else []

/-- Apply one attempted effect to the registry.  `dynamodb_update` upserts
`error_state` and preserves `epoch_seconds`; when its `ClientError` is
raised (`update_fails`), the source logs and swallows it, so the registry is
unchanged.  A Slack post never touches the registry. -/
def dynamodb_update (reg : Registry) (cluster_name : String) (error_state : Bool) :
    Registry :=
  fun k =>
    if k = cluster_name then
      some { epoch_seconds := epochAt reg cluster_name, error_state := some error_state }
    else reg k

/-- Registry effect of one attempted event (see `dynamodb_update`). -/
def applyEvent (update_fails : Bool) (reg : Registry) (e : Event) : Registry :=
  match e with
  | Event.update c b => if update_fails then reg else dynamodb_update reg c b
  | Event.notify _ _ _ => reg

/-- The loop of `check` over the scanned clusters, threading the registry and
collecting the attempted effects.  `i` counts loop iterations: `times i` is
the `int(time.time())` read at iteration `i`, `update_fails i` /
`notify_fails i` say whether that iteration's external calls raise.  A
failed notification is logged and swallowed with no effect at all, so
`notify_fails` influences nothing (that is the point: see `send_slack_notification`
in the source). -/
def checkAux (cfg : CheckerConfig) (times : Nat → Int) (update_fails : Nat → Bool)
    (notify_fails : Nat → Bool) : Nat → List ClusterRecord → Registry →
    Registry × List Event
  | _, [], reg => (reg, [])
  | i, c :: rest, reg =>
    let evs := processCluster cfg (times i) c
    let reg1 := evs.foldl (applyEvent (update_fails i)) reg
    let r := checkAux cfg times update_fails notify_fails (i + 1) rest reg1
    (r.1, evs ++ r.2)

/-- `check(event, context)`: one evaluator pass over the scanned clusters. -/
def check (cfg : CheckerConfig) (times : Nat → Int) (update_fails : Nat → Bool)
    (notify_fails : Nat → Bool) (clusters : List ClusterRecord) (reg : Registry) :
    Registry × List Event :=
  checkAux cfg times update_fails notify_fails 0 clusters reg

/-- A pass in which every external call succeeds and the clock does not
advance between iterations (`time.time()` constant during the pass). -/
def noFail : Nat → Bool := fun _ => false

/-! ## Helper lemmas about the evaluator pass -/

/-- Every effect attempted while processing a cluster belongs to that
cluster. -/
lemma eventCluster_processCluster (cfg : CheckerConfig) (now : Int)
    (c : ClusterRecord) : ∀ e ∈ processCluster cfg now c,
    eventCluster e = c.cluster_name := by
  intro e he
  simp only [processCluster] at he
  split at he
  · split at he
    · simp only [List.mem_cons, List.not_mem_nil, or_false] at he
      rcases he with h | h <;> subst h <;> rfl
    · rcases List.mem_append.1 he with h | h
      · split at h
        · simp only [List.mem_singleton] at h
          subst h; rfl
        · cases h
      · simp only [List.mem_singleton] at h
        subst h; rfl
  · cases he

/-- The trace of attempted effects does not depend on the registry nor on
which external calls fail. -/
lemma checkAux_snd_congr (cfg : CheckerConfig) (times : Nat → Int) :
    ∀ (cls : List ClusterRecord) (i : Nat) (uf nf uf' nf' : Nat → Bool)
    (reg reg' : Registry),
    (checkAux cfg times uf nf i cls reg).2
      = (checkAux cfg times uf' nf' i cls reg').2 := by
  intro cls
  induction cls with
  | nil => intro i uf nf uf' nf' reg reg'; rfl
  | cons c rest ih =>
    intro i uf nf uf' nf' reg reg'
    simp only [checkAux]
    rw [ih (i + 1) uf nf uf' nf']

/-- The registry produced by a pass does not depend on notification-delivery
failures. -/
lemma checkAux_fst_nf (cfg : CheckerConfig) (times : Nat → Int)
    (uf : Nat → Bool) : ∀ (cls : List ClusterRecord) (i : Nat)
    (nf nf' : Nat → Bool) (reg : Registry),
    (checkAux cfg times uf nf i cls reg).1
      = (checkAux cfg times uf nf' i cls reg).1 := by
  intro cls
  induction cls with
  | nil => intro i nf nf' reg; rfl
  | cons c rest ih =>
    intro i nf nf' reg
    simp only [checkAux]
    rw [ih (i + 1) nf nf']

/-- The trace of a pass, as a pure function of the scanned clusters, when the
clock is constant during the pass. -/
def passEvents (cfg : CheckerConfig) (now : Int) : List ClusterRecord → List Event
  | [] => []
  | c :: rest => processCluster cfg now c ++ passEvents cfg now rest

/-- The final registry of a failure-free pass, as a pure function of the
scanned clusters, when the clock is constant during the pass. -/
def passReg (cfg : CheckerConfig) (now : Int) : List ClusterRecord → Registry → Registry
  | [], reg => reg
  | c :: rest, reg =>
    passReg cfg now rest ((processCluster cfg now c).foldl (applyEvent false) reg)

lemma checkAux_const_snd (cfg : CheckerConfig) (now : Int) :
    ∀ (cls : List ClusterRecord) (i : Nat) (reg : Registry),
    (checkAux cfg (fun _ => now) noFail noFail i cls reg).2 = passEvents cfg now cls := by
  intro cls
  induction cls with
  | nil => intro i reg; rfl
  | cons c rest ih =>
    intro i reg
    simp only [checkAux, passEvents]
    rw [ih (i + 1)]

lemma checkAux_const_fst (cfg : CheckerConfig) (now : Int) :
    ∀ (cls : List ClusterRecord) (i : Nat) (reg : Registry),
    (checkAux cfg (fun _ => now) noFail noFail i cls reg).1 = passReg cfg now cls reg := by
  intro cls
  induction cls with
  | nil => intro i reg; rfl
  | cons c rest ih =>
    intro i reg
    simp only [checkAux, passReg, noFail]
    rw [ih (i + 1)]

/-- A failure-free constant-clock pass is `passReg` and `passEvents`. -/
lemma check_const (cfg : CheckerConfig) (now : Int) (cls : List ClusterRecord)
    (reg : Registry) : check cfg (fun _ => now) noFail noFail cls reg
      = (passReg cfg now cls reg, passEvents cfg now cls) := by
  unfold check
  refine Prod.ext ?_ ?_
  · exact checkAux_const_fst cfg now cls 0 reg
  · exact checkAux_const_snd cfg now cls 0 reg

/-- `dynamodb_update` leaves every other cluster's item untouched. -/
lemma dynamodb_update_ne {k c : String} (reg : Registry) (b : Bool) (h : k ≠ c) :
    dynamodb_update reg c b k = reg k := by
  simp only [dynamodb_update]
  rw [if_neg h]

/-- `dynamodb_update` never changes any stored `epoch_seconds`. -/
lemma dynamodb_update_epochAt (reg : Registry) (c : String) (b : Bool) (k : String) :
    epochAt (dynamodb_update reg c b) k = epochAt reg k := by
  by_cases h : k = c
  · subst h
    simp [dynamodb_update, epochAt]
  · simp only [epochAt]
    rw [dynamodb_update_ne reg b h]

/-- One attempted event never changes any stored `epoch_seconds`. -/
lemma applyEvent_epochAt (f : Bool) (reg : Registry) (e : Event) (k : String) :
    epochAt (applyEvent f reg e) k = epochAt reg k := by
  cases e with
  | notify => rfl
  | update c b =>
    simp only [applyEvent]
    split
    · rfl
    · exact dynamodb_update_epochAt reg c b k

lemma foldl_applyEvent_epochAt (f : Bool) (k : String) :
    ∀ (evs : List Event) (reg : Registry),
    epochAt (evs.foldl (applyEvent f) reg) k = epochAt reg k := by
  intro evs
  induction evs with
  | nil => intro reg; rfl
  | cons e rest ih =>
    intro reg
    rw [List.foldl_cons, ih, applyEvent_epochAt]

/-- A whole evaluator pass never changes any stored `epoch_seconds`. -/
lemma checkAux_epochAt (cfg : CheckerConfig) (times : Nat → Int)
    (uf nf : Nat → Bool) (k : String) : ∀ (cls : List ClusterRecord) (i : Nat)
    (reg : Registry),
    epochAt ((checkAux cfg times uf nf i cls reg).1) k = epochAt reg k := by
  intro cls
  induction cls with
  | nil => intro i reg; rfl
  | cons c rest ih =>
    intro i reg
    simp only [checkAux]
    rw [ih (i + 1), foldl_applyEvent_epochAt]

/-- The effect of one event at key `k` depends on the prior registry only
through its value at `k`. -/
lemma applyEvent_congr_at (f : Bool) (e : Event) {r1 r2 : Registry} {k : String}
    (h : r1 k = r2 k) : applyEvent f r1 e k = applyEvent f r2 e k := by
  cases e with
  | notify => exact h
  | update c b =>
    simp only [applyEvent]
    split
    · exact h
    · by_cases hk : k = c
      · subst hk
        simp [dynamodb_update, epochAt, h]
      · rw [dynamodb_update_ne r1 b hk, dynamodb_update_ne r2 b hk]
        exact h

lemma foldl_applyEvent_congr_at (f : Bool) {k : String} :
    ∀ (evs : List Event) {r1 r2 : Registry}, r1 k = r2 k →
    (evs.foldl (applyEvent f) r1) k = (evs.foldl (applyEvent f) r2) k := by
  intro evs
  induction evs with
  | nil => intro r1 r2 h; exact h
  | cons e rest ih =>
    intro r1 r2 h
    rw [List.foldl_cons, List.foldl_cons]
    exact ih (applyEvent_congr_at f e h)

/-- Events of other clusters do not touch key `k`. -/
lemma foldl_applyEvent_ne {k : String} :
    ∀ (evs : List Event) (f : Bool) (reg : Registry),
    (∀ e ∈ evs, eventCluster e ≠ k) → (evs.foldl (applyEvent f) reg) k = reg k := by
  intro evs
  induction evs with
  | nil => intro f reg _; rfl
  | cons e rest ih =>
    intro f reg h
    rw [List.foldl_cons, ih f _ (fun x hx => h x (List.mem_cons_of_mem e hx))]
    have hne := h e (List.mem_cons_self e rest)
    cases e with
    | notify => rfl
    | update c b =>
      simp only [applyEvent]
      split
      · rfl
      · exact dynamodb_update_ne reg b (fun hkc => hne hkc.symm)

lemma passReg_congr_at (cfg : CheckerConfig) (now : Int) {k : String} :
    ∀ (cls : List ClusterRecord) {r1 r2 : Registry}, r1 k = r2 k →
    passReg cfg now cls r1 k = passReg cfg now cls r2 k := by
  intro cls
  induction cls with
  | nil => intro r1 r2 h; exact h
  | cons c rest ih =>
    intro r1 r2 h
    simp only [passReg]
    exact ih (foldl_applyEvent_congr_at false _ h)

/-- The final value of key `k` depends only on the clusters named `k` in the
scan (in order). -/
lemma passReg_filter_at (cfg : CheckerConfig) (now : Int) (k : String) :
    ∀ (cls : List ClusterRecord) (reg : Registry),
    passReg cfg now cls reg k
      = passReg cfg now (cls.filter (fun c => c.cluster_name == k)) reg k := by
  intro cls
  induction cls with
  | nil => intro reg; rfl
  | cons c rest ih =>
    intro reg
    by_cases hc : c.cluster_name = k
    · rw [List.filter_cons_of_pos (by simp [hc])]
      simp only [passReg]
      exact ih _
    · rw [List.filter_cons_of_neg (by simp [hc])]
      simp only [passReg]
      have h1 : ((processCluster cfg now c).foldl (applyEvent false) reg) k = reg k :=
        foldl_applyEvent_ne _ false reg
          (fun e he => by rw [eventCluster_processCluster cfg now c e he]; exact hc)
      rw [passReg_congr_at cfg now rest h1, ih reg]

/-- The events of a pass that belong to cluster `k` are exactly the events
produced by the scanned records named `k` (in order). -/
lemma passEvents_filter (cfg : CheckerConfig) (now : Int) (k : String) :
    ∀ (cls : List ClusterRecord),
    (passEvents cfg now cls).filter (fun e => eventCluster e == k)
      = passEvents cfg now (cls.filter (fun c => c.cluster_name == k)) := by
  intro cls
  induction cls with
  | nil => rfl
  | cons c rest ih =>
    simp only [passEvents, List.filter_append]
    by_cases hc : c.cluster_name = k
    · rw [List.filter_cons_of_pos (by simp [hc])]
      simp only [passEvents]
      rw [ih, List.filter_eq_self.mpr]
      intro e he
      rw [eventCluster_processCluster cfg now c e he]
      simp [hc]
    · rw [List.filter_cons_of_neg (by simp [hc])]
      rw [ih, List.filter_eq_nil_iff.mpr, List.nil_append]
      intro e he
      rw [eventCluster_processCluster cfg now c e he]
      simp [hc]

/-- Under unique cluster names, at most one scanned record is named `k`. -/
lemma length_filter_name_le_one (k : String) :
    ∀ (cls : List ClusterRecord), (cls.map ClusterRecord.cluster_name).Nodup →
    (cls.filter (fun c => c.cluster_name == k)).length ≤ 1 := by
  intro cls
  induction cls with
  | nil => intro _; simp
  | cons a rest ih =>
    intro hnd
    simp only [List.map_cons, List.nodup_cons] at hnd
    obtain ⟨hna, hnd'⟩ := hnd
    by_cases ha : a.cluster_name = k
    · rw [List.filter_cons_of_pos (by simp [ha])]
      have hnil : rest.filter (fun c => c.cluster_name == k) = [] := by
        rw [List.filter_eq_nil_iff]
        intro x hx
        simp only [beq_iff_eq]
        intro hxk
        exact hna (by
          rw [ha, ← hxk]
          exact List.mem_map_of_mem ClusterRecord.cluster_name hx)
      rw [hnil]
      simp
    · rw [List.filter_cons_of_neg (by simp [ha])]
      exact ih hnd'

/-- Under unique cluster names, the records named like a member `c` are
exactly `[c]`. -/
lemma filter_name_eq_singleton :
    ∀ (cls : List ClusterRecord) (c : ClusterRecord),
    (cls.map ClusterRecord.cluster_name).Nodup → c ∈ cls →
    cls.filter (fun x => x.cluster_name == c.cluster_name) = [c] := by
  intro cls
  induction cls with
  | nil => intro c _ hc; cases hc
  | cons a rest ih =>
    intro c hnd hc
    simp only [List.map_cons, List.nodup_cons] at hnd
    obtain ⟨hna, hnd'⟩ := hnd
    rcases List.mem_cons.1 hc with h | h
    · subst h
      rw [List.filter_cons_of_pos (by simp)]
      have hnil : rest.filter (fun x => x.cluster_name == c.cluster_name) = [] := by
        rw [List.filter_eq_nil_iff]
        intro x hx
        simp only [beq_iff_eq]
        intro hxc
        exact hna (hxc ▸ List.mem_map_of_mem ClusterRecord.cluster_name hx)
      rw [hnil]
    · have hne : ¬ (a.cluster_name == c.cluster_name) = true := by
        simp only [beq_iff_eq]
        intro heq
        exact hna (heq ▸ List.mem_map_of_mem ClusterRecord.cluster_name h)
      rw [List.filter_cons_of_neg (by exact hne)]
      exact ih c hnd' h

/-- Two permuted lists of length at most one are equal. -/
lemma perm_eq_of_length_le_one {α : Type} :
    ∀ {l1 l2 : List α}, l1.Perm l2 → l1.length ≤ 1 → l1 = l2 := by
  intro l1 l2 hp hl
  match l1, hl with
  | [], _ => exact (List.nil_perm.1 hp).symm
  | [a], _ => exact (List.singleton_perm.1 hp)

/-! ## Claims -/

/-- C1: in a pass of `check` over scan results with unique cluster names, a
processed cluster (maintenance window does not exclude it) whose staleness
`now - epoch_seconds` strictly exceeds `MAX_TIME_SECONDS` gets exactly one
alert notification followed by a persisted `error_state = true`, whatever
its prior `error_state` was (level-triggered: this holds on every pass while
the condition persists). -/
theorem alert_level_triggered (cfg : CheckerConfig) (now : Int)
    (cls : List ClusterRecord) (reg : Registry) (c : ClusterRecord)
    (hmem : c ∈ cls) (hnd : (cls.map ClusterRecord.cluster_name).Nodup)
    (hproc : check_cluster_cron cfg c.cluster_name = true)
    (hstale : now - c.epoch_seconds > cfg.MAX_TIME_SECONDS) :
    ((check cfg (fun _ => now) noFail noFail cls reg).2.filter
        (fun e => eventCluster e == c.cluster_name))
      = [Event.notify true c.cluster_name (now - c.epoch_seconds),
         Event.update c.cluster_name true]
    ∧ errorAt (check cfg (fun _ => now) noFail noFail cls reg).1 c.cluster_name
      = some true := by
  have hch := check_const cfg now cls reg
  have hpc : processCluster cfg now c
      = [Event.notify true c.cluster_name (now - c.epoch_seconds),
         Event.update c.cluster_name true] := by
    simp [processCluster, hproc, hstale]
  constructor
  · rw [hch]
    rw [passEvents_filter, filter_name_eq_singleton cls c hnd hmem]
    simp only [passEvents]
    rw [List.append_nil, hpc]
  · rw [hch]
    simp only [errorAt]
    rw [passReg_filter_at cfg now c.cluster_name cls reg,
      filter_name_eq_singleton cls c hnd hmem]
    simp only [passReg]
    rw [hpc]
    simp [applyEvent, dynamodb_update]

/-- Witness for C1 at a concrete stale cluster. -/
theorem alert_level_triggered_witness :
    ((check ⟨300, [], true, true, 0, 0⟩ (fun _ => (400 : Int)) noFail noFail
        [⟨"b", 0, some false⟩] (fun _ => none)).2.filter
        (fun e => eventCluster e == "b"))
      = [Event.notify true "b" ((400 : Int) - 0), Event.update "b" true]
    ∧ errorAt (check ⟨300, [], true, true, 0, 0⟩ (fun _ => (400 : Int)) noFail noFail
        [⟨"b", 0, some false⟩] (fun _ => none)).1 "b" = some true :=
  alert_level_triggered ⟨300, [], true, true, 0, 0⟩ 400 [⟨"b", 0, some false⟩]
    (fun _ => none) ⟨"b", 0, some false⟩ (by decide) (by decide) (by decide) (by decide)

/-- C2: in a pass of `check` over scan results with unique cluster names, a
processed cluster whose staleness is at most `MAX_TIME_SECONDS` gets exactly
one recovery notification if its prior `error_state` was true, and no
notification if it was false or absent; in every case `error_state = false`
is persisted (recovery is edge-triggered). -/
theorem recovery_edge_triggered (cfg : CheckerConfig) (now : Int)
    (cls : List ClusterRecord) (reg : Registry) (c : ClusterRecord)
    (hmem : c ∈ cls) (hnd : (cls.map ClusterRecord.cluster_name).Nodup)
    (hproc : check_cluster_cron cfg c.cluster_name = true)
    (hfresh : now - c.epoch_seconds ≤ cfg.MAX_TIME_SECONDS) :
    (c.error_state = some true →
      ((check cfg (fun _ => now) noFail noFail cls reg).2.filter
          (fun e => eventCluster e == c.cluster_name))
        = [Event.notify false c.cluster_name (now - c.epoch_seconds),
           Event.update c.cluster_name false])
    ∧ (c.error_state ≠ some true →
      ((check cfg (fun _ => now) noFail noFail cls reg).2.filter
          (fun e => eventCluster e == c.cluster_name))
        = [Event.update c.cluster_name false])
    ∧ errorAt (check cfg (fun _ => now) noFail noFail cls reg).1 c.cluster_name
      = some false := by
  have hch := check_const cfg now cls reg
  have hnot : ¬ now - c.epoch_seconds > cfg.MAX_TIME_SECONDS := not_lt.2 hfresh
  have hpc : processCluster cfg now c
      = (if c.error_state = some true
          then [Event.notify false c.cluster_name (now - c.epoch_seconds)] else [])
        ++ [Event.update c.cluster_name false] := by
    simp [processCluster, hproc, hnot]
  refine ⟨?_, ?_, ?_⟩
  · intro hs
    rw [hch]
    rw [passEvents_filter, filter_name_eq_singleton cls c hnd hmem]
    simp only [passEvents]
    rw [List.append_nil, hpc, if_pos hs]
    rfl
  · intro hs
    rw [hch]
    rw [passEvents_filter, filter_name_eq_singleton cls c hnd hmem]
    simp only [passEvents]
    rw [List.append_nil, hpc, if_neg hs]
    rfl
  · rw [hch]
    simp only [errorAt]
    rw [passReg_filter_at cfg now c.cluster_name cls reg,
      filter_name_eq_singleton cls c hnd hmem]
    simp only [passReg]
    rw [hpc]
    by_cases hs : c.error_state = some true
    · rw [if_pos hs]
      simp [applyEvent, dynamodb_update]
    · rw [if_neg hs]
      simp [applyEvent, dynamodb_update]

/-- Witness for C2 at a concrete recovering cluster. -/
theorem recovery_edge_triggered_witness :
    ((⟨"a", 40, some true⟩ : ClusterRecord).error_state = some true →
      ((check ⟨300, [], true, true, 0, 0⟩ (fun _ => (100 : Int)) noFail noFail
          [⟨"a", 40, some true⟩] (fun _ => none)).2.filter
          (fun e => eventCluster e == "a"))
        = [Event.notify false "a" ((100 : Int) - 40), Event.update "a" false])
    ∧ ((⟨"a", 40, some true⟩ : ClusterRecord).error_state ≠ some true →
      ((check ⟨300, [], true, true, 0, 0⟩ (fun _ => (100 : Int)) noFail noFail
          [⟨"a", 40, some true⟩] (fun _ => none)).2.filter
          (fun e => eventCluster e == "a"))
        = [Event.update "a" false])
    ∧ errorAt (check ⟨300, [], true, true, 0, 0⟩ (fun _ => (100 : Int)) noFail noFail
        [⟨"a", 40, some true⟩] (fun _ => none)).1 "a" = some false :=
  recovery_edge_triggered ⟨300, [], true, true, 0, 0⟩ 100 [⟨"a", 40, some true⟩]
    (fun _ => none) ⟨"a", 40, some true⟩ (by decide) (by decide) (by decide) (by decide)

/-- C3: a cluster of the maintenance-window group, with both cron
expressions valid and the most recent scale-down occurrence strictly later
than the most recent scale-up occurrence, is skipped entirely by the pass:
its loop body yields no effect, no notification or state write for it
appears in the trace, and its registry record is untouched. -/
theorem maintenance_window_skips_cluster (cfg : CheckerConfig) (now : Int)
    (cls : List ClusterRecord) (reg : Registry) (c : ClusterRecord)
    (hmem : c ∈ cls) (hnd : (cls.map ClusterRecord.cluster_name).Nodup)
    (hin : c.cluster_name ∈ cfg.SCALE_DOWN_CLUSTERS)
    (hdv : cfg.scale_down_cron_valid = true)
    (huv : cfg.scale_up_cron_valid = true)
    (hgt : cfg.last_scale_down > cfg.last_scale_up) :
    check_cluster_cron cfg c.cluster_name = false
    ∧ processCluster cfg now c = []
    ∧ ((check cfg (fun _ => now) noFail noFail cls reg).2.filter
        (fun e => eventCluster e == c.cluster_name)) = []
    ∧ (check cfg (fun _ => now) noFail noFail cls reg).1 c.cluster_name
      = reg c.cluster_name := by
  have hch := check_const cfg now cls reg
  have hccc : check_cluster_cron cfg c.cluster_name = false := by
    simp [check_cluster_cron, hin, hdv, huv, hgt]
  have hpc : processCluster cfg now c = [] := by
    simp [processCluster, hccc]
  refine ⟨hccc, hpc, ?_, ?_⟩
  · rw [hch]
    rw [passEvents_filter, filter_name_eq_singleton cls c hnd hmem]
    simp only [passEvents]
    rw [List.append_nil, hpc]
  · rw [hch]
    show passReg cfg now cls reg c.cluster_name = reg c.cluster_name
    rw [passReg_filter_at cfg now c.cluster_name cls reg,
      filter_name_eq_singleton cls c hnd hmem]
    simp only [passReg]
    rw [hpc]
    rfl

/-- Witness for C3 at a concrete scaled-down cluster. -/
theorem maintenance_window_skips_cluster_witness :
    check_cluster_cron ⟨300, ["m"], true, true, 5, 3⟩ "m" = false
    ∧ processCluster ⟨300, ["m"], true, true, 5, 3⟩ 1000 ⟨"m", 0, none⟩ = []
    ∧ ((check ⟨300, ["m"], true, true, 5, 3⟩ (fun _ => (1000 : Int)) noFail noFail
        [⟨"m", 0, none⟩] (fun _ => none)).2.filter
        (fun e => eventCluster e == "m")) = []
    ∧ (check ⟨300, ["m"], true, true, 5, 3⟩ (fun _ => (1000 : Int)) noFail noFail
        [⟨"m", 0, none⟩] (fun _ => none)).1 "m" = (fun _ => none : Registry) "m" :=
  maintenance_window_skips_cluster ⟨300, ["m"], true, true, 5, 3⟩ 1000
    [⟨"m", 0, none⟩] (fun _ => none) ⟨"m", 0, none⟩ (by decide) (by decide)
    (by decide) (by decide) (by decide) (by decide)

/-- C4: a maintenance-group cluster with an invalid scale-down or scale-up
cron expression is processed exactly as if no maintenance window applied
(fail open): `check_cluster_cron` says process, and the loop body behaves as
with an empty maintenance group. -/
theorem invalid_cron_fails_open (cfg : CheckerConfig) (now : Int)
    (c : ClusterRecord) (hin : c.cluster_name ∈ cfg.SCALE_DOWN_CLUSTERS)
    (hinv : cfg.scale_down_cron_valid = false ∨ cfg.scale_up_cron_valid = false) :
    check_cluster_cron cfg c.cluster_name = true
    ∧ processCluster cfg now c
      = processCluster { cfg with SCALE_DOWN_CLUSTERS := [] } now c := by
  have h1 : check_cluster_cron cfg c.cluster_name = true := by
    rcases hinv with h | h <;> simp [check_cluster_cron, hin, h]
  have h2 : check_cluster_cron { cfg with SCALE_DOWN_CLUSTERS := [] }
      c.cluster_name = true := by
    simp [check_cluster_cron]
  exact ⟨h1, by simp [processCluster, h1, h2]⟩

/-- Witness for C4 at a concrete cluster with an invalid scale-down cron. -/
theorem invalid_cron_fails_open_witness :
    check_cluster_cron ⟨300, ["m"], false, true, 5, 3⟩ "m" = true
    ∧ processCluster ⟨300, ["m"], false, true, 5, 3⟩ 1000 ⟨"m", 0, some true⟩
      = processCluster { (⟨300, ["m"], false, true, 5, 3⟩ : CheckerConfig) with
          SCALE_DOWN_CLUSTERS := [] } 1000 ⟨"m", 0, some true⟩ :=
  invalid_cron_fails_open ⟨300, ["m"], false, true, 5, 3⟩ 1000 ⟨"m", 0, some true⟩
    (by decide) (Or.inl rfl)

/-- C5: with the correct shared token and the storage available, `webhook`
performs exactly one registry write — the upsert of `epoch_seconds := now`
for the named cluster, creating the item if absent and leaving `error_state`
as it was — and returns status 200 with the decimal string of `now` as
body. -/
theorem record_success_writes_and_returns_now (secret : String) (now : Int)
    (e : ApiEvent) (reg : Registry) (hv : verify_token secret e = true) :
    webhook secret now false e reg
      = Except.ok (dynamodb_write reg e.cluster_name now, ⟨200, toString now⟩)
    ∧ (dynamodb_write reg e.cluster_name now) e.cluster_name
      = some ⟨some now, errorAt reg e.cluster_name⟩
    ∧ epochAt (dynamodb_write reg e.cluster_name now) e.cluster_name = some now := by
  refine ⟨?_, ?_, ?_⟩
  · simp [webhook, hv]
  · simp [dynamodb_write]
  · simp [epochAt, dynamodb_write]

/-- Witness for C5 at a concrete valid call. -/
theorem record_success_writes_and_returns_now_witness :
    webhook "s" 42 false ⟨"c1", some "s"⟩ (fun _ => none)
      = Except.ok (dynamodb_write (fun _ => none) "c1" 42, ⟨200, toString (42 : Int)⟩)
    ∧ (dynamodb_write (fun _ => none : Registry) "c1" 42) "c1"
      = some ⟨some 42, errorAt (fun _ => none) "c1"⟩
    ∧ epochAt (dynamodb_write (fun _ => none) "c1" 42) "c1" = some 42 :=
  record_success_writes_and_returns_now "s" 42 ⟨"c1", some "s"⟩ (fun _ => none)
    (by decide)

/-- C6: a call whose query has no `verify_token` or whose token differs from
the secret fails verification, performs no registry write, and returns 400
with the "Wrong verification token" body — the registry is returned exactly
as it was. -/
theorem record_unauthorized_no_write (secret : String) (now : Int) (wf : Bool)
    (e : ApiEvent) (reg : Registry) :
    (verify_token secret e = false ↔ e.query_verify_token ≠ some secret)
    ∧ (verify_token secret e = false →
        webhook secret now wf e reg
          = Except.ok (reg, ⟨400, "Wrong verification token"⟩)) := by
  constructor
  · cases hq : e.query_verify_token with
    | none => simp [verify_token, hq]
    | some t => simp [verify_token, hq]
  · intro h
    simp [webhook, h]

/-- Witness for C6 at a concrete wrong-token call. -/
theorem record_unauthorized_no_write_witness :
    (verify_token "s" ⟨"c1", some "x"⟩ = false
      ↔ (⟨"c1", some "x"⟩ : ApiEvent).query_verify_token ≠ some "s")
    ∧ (verify_token "s" ⟨"c1", some "x"⟩ = false →
        webhook "s" 0 false ⟨"c1", some "x"⟩ (fun _ => none)
          = Except.ok ((fun _ => none : Registry), ⟨400, "Wrong verification token"⟩)) :=
  record_unauthorized_no_write "s" 0 false ⟨"c1", some "x"⟩ (fun _ => none)

/-- C7: the trace of attempted effects of a pass is the same whatever
external calls fail — a swallowed `dynamodb_update` failure does not abort
the processing of the remaining clusters, and a swallowed notification
failure never prevents the state write that follows it; moreover the final
registry does not depend on notification failures at all. -/
theorem failures_swallowed_processing_continues (cfg : CheckerConfig)
    (times : Nat → Int) (uf nf : Nat → Bool) (cls : List ClusterRecord)
    (reg : Registry) :
    (check cfg times uf nf cls reg).2 = (check cfg times noFail noFail cls reg).2
    ∧ (check cfg times uf nf cls reg).1 = (check cfg times uf noFail cls reg).1 :=
  ⟨checkAux_snd_congr cfg times cls 0 uf nf noFail noFail reg reg,
    checkAux_fst_nf cfg times uf cls 0 nf noFail reg⟩

/-- C8: frame conditions of the two writers — the recorder's
`dynamodb_write` never touches any stored `error_state` and touches no other
cluster's item, and an evaluator pass never changes any stored
`epoch_seconds`. -/
theorem recorder_evaluator_frame (reg : Registry) (name : String) (t : Int)
    (k : String) (cfg : CheckerConfig) (times : Nat → Int) (uf nf : Nat → Bool)
    (cls : List ClusterRecord) :
    errorAt (dynamodb_write reg name t) k = errorAt reg k
    ∧ (k ≠ name → dynamodb_write reg name t k = reg k)
    ∧ epochAt ((check cfg times uf nf cls reg).1) k = epochAt reg k := by
  refine ⟨?_, ?_, checkAux_epochAt cfg times uf nf k cls 0 reg⟩
  · by_cases hk : k = name
    · subst hk
      simp [dynamodb_write, errorAt]
    · simp [errorAt, dynamodb_write, hk]
  · intro hk
    simp [dynamodb_write, hk]

/-- Witness for C8 at a concrete registry, write and pass. -/
theorem recorder_evaluator_frame_witness :
    errorAt (dynamodb_write (fun _ => none) "n" 7) "k"
      = errorAt (fun _ => none) "k"
    ∧ ("k" ≠ "n" → dynamodb_write (fun _ => none : Registry) "n" 7 "k"
        = (fun _ => none : Registry) "k")
    ∧ epochAt (check ⟨300, [], true, true, 0, 0⟩ (fun _ => (0 : Int)) noFail noFail
        [⟨"k", 0, some true⟩] (fun _ => none)).1 "k"
      = epochAt (fun _ => none) "k" :=
  recorder_evaluator_frame (fun _ => none) "n" 7 "k" ⟨300, [], true, true, 0, 0⟩
    (fun _ => 0) noFail noFail [⟨"k", 0, some true⟩]

/-- C9: the per-cluster decision of a pass is independent of the other
clusters and of position — over scan results with unique cluster names,
permuting the scanned list changes neither the events attributed to any
cluster nor any cluster's final registry record (clock constant during the
pass, external calls succeeding). -/
theorem evaluate_order_insensitive (cfg : CheckerConfig) (now : Int)
    (cls1 cls2 : List ClusterRecord) (reg : Registry) (k : String)
    (hperm : cls1.Perm cls2)
    (hnd : (cls1.map ClusterRecord.cluster_name).Nodup) :
    ((check cfg (fun _ => now) noFail noFail cls1 reg).2.filter
        (fun e => eventCluster e == k))
      = ((check cfg (fun _ => now) noFail noFail cls2 reg).2.filter
        (fun e => eventCluster e == k))
    ∧ (check cfg (fun _ => now) noFail noFail cls1 reg).1 k
      = (check cfg (fun _ => now) noFail noFail cls2 reg).1 k := by
  have h1 := check_const cfg now cls1 reg
  have h2 := check_const cfg now cls2 reg
  have hfeq : cls1.filter (fun c => c.cluster_name == k)
      = cls2.filter (fun c => c.cluster_name == k) :=
    perm_eq_of_length_le_one (List.Perm.filter _ hperm)
      (length_filter_name_le_one k cls1 hnd)
  constructor
  · rw [h1, h2]
    show (passEvents cfg now cls1).filter (fun e => eventCluster e == k)
      = (passEvents cfg now cls2).filter (fun e => eventCluster e == k)
    rw [passEvents_filter, passEvents_filter, hfeq]
  · rw [h1, h2]
    show passReg cfg now cls1 reg k = passReg cfg now cls2 reg k
    rw [passReg_filter_at cfg now k cls1 reg, hfeq,
      ← passReg_filter_at cfg now k cls2 reg]

/-- Witness for C9 at a concrete two-cluster scan and its swap. -/
theorem evaluate_order_insensitive_witness :
    ((check ⟨300, [], true, true, 0, 0⟩ (fun _ => (400 : Int)) noFail noFail
        [⟨"a", 350, some true⟩, ⟨"b", 0, none⟩] (fun _ => none)).2.filter
        (fun e => eventCluster e == "a"))
      = ((check ⟨300, [], true, true, 0, 0⟩ (fun _ => (400 : Int)) noFail noFail
        [⟨"b", 0, none⟩, ⟨"a", 350, some true⟩] (fun _ => none)).2.filter
        (fun e => eventCluster e == "a"))
    ∧ (check ⟨300, [], true, true, 0, 0⟩ (fun _ => (400 : Int)) noFail noFail
        [⟨"a", 350, some true⟩, ⟨"b", 0, none⟩] (fun _ => none)).1 "a"
      = (check ⟨300, [], true, true, 0, 0⟩ (fun _ => (400 : Int)) noFail noFail
        [⟨"b", 0, none⟩, ⟨"a", 350, some true⟩] (fun _ => none)).1 "a" :=
  evaluate_order_insensitive ⟨300, [], true, true, 0, 0⟩ 400
    [⟨"a", 350, some true⟩, ⟨"b", 0, none⟩]
    [⟨"b", 0, none⟩, ⟨"a", 350, some true⟩] (fun _ => none) "a"
    (by decide) (by decide)

/-- C10: every alert notification a pass attempts carries the fixed phrase
"has not checked in for over 5 minutes" in its Slack message body, for every
configuration — the five-minute figure in the text does not follow
`MAX_TIME_SECONDS`. -/
theorem alert_message_fixed_phrase (cfg : CheckerConfig) (times : Nat → Int)
    (uf nf : Nat → Bool) (cls : List ClusterRecord) (reg : Registry)
    (name : String) (t : Int)
    (hmem : Event.notify true name t ∈ (check cfg times uf nf cls reg).2) :
    ∃ pre post, eventMessage (Event.notify true name t)
      = some (pre ++ ("has not checked in for over 5 minutes" ++ post)) := by
  refine ⟨"*Prometheus Instance Not Responding*\nA Prometheus instance ",
    "\n" ++ notification_text name t, ?_⟩
  show some (slack_text true (notification_text name t)) = some _
  congr 1

/-- Witness for C10 at a concrete pass that attempts an alert. -/
theorem alert_message_fixed_phrase_witness :
    ∃ pre post, eventMessage (Event.notify true "b" 400)
      = some (pre ++ ("has not checked in for over 5 minutes" ++ post)) :=
  alert_message_fixed_phrase ⟨300, [], true, true, 0, 0⟩ (fun _ => 400) noFail
    noFail [⟨"b", 0, none⟩] (fun _ => none) "b" 400 (by decide)

end DeadMansSwitch
